import Mathlib

/-!
Shallow embedding of `handeyecalibration/handeye_calibrator.py`
(class `HandeyeCalibrator`).

The Python class wires the tf transform listener to the ViSP hand2eye
calibration service.  We embed:

* the message types (`Vector3`, `Quaternion`, `Transform`, `TransformArray`)
  with rational components (no arithmetic is performed on them in the code
  under study, only repackaging);
* the tf listener as a record of response functions
  (`waitForTransform`, `lookupTransform`, `now`); every call the calibrator
  makes to the listener is additionally recorded as a `TFEvent` in a trace,
  so theorems can speak about which frame pairs, timestamps and timeouts
  are passed to the external transform interface;
* the calibrator state as the list of collected samples
  (`self.samples`), threaded explicitly through the operations;
* the calibration service proxy as a function returning
  `Except String` (a `ServiceException` carries a message);
* `compute_calibration` returning, besides its Python return value
  (captured by `ComputeOutcome`), the arguments it passed to the solver
  (`none` when the solver was never invoked) and the resulting sample
  state.
-/

namespace EasyHandeye

/-- geometry_msgs `Vector3` (components embedded as rationals). -/
structure Vector3 where
  x : Rat
  y : Rat
  z : Rat
deriving DecidableEq, Repr

/-- geometry_msgs `Quaternion` (components embedded as rationals). -/
structure Quaternion where
  x : Rat
  y : Rat
  z : Rat
  w : Rat
deriving DecidableEq, Repr

/-- geometry_msgs `Transform`.  The Python code builds `Transform` values
both from `Vector3`/`Quaternion` messages (in `_tuple_to_visp_transform`)
and from raw tuples (for `result_tf` in `compute_calibration`), relying on
duck typing; the two payload types are therefore parameters. -/
structure Transform (α β : Type) where
  translation : α
  rotation : β
deriving DecidableEq, Repr

/-- A tf transform as returned by `lookupTransform`:
a `(translation, rotation)` pair of tuples. -/
abbrev TfTuple : Type := (Rat × Rat × Rat) × (Rat × Rat × Rat × Rat)

/-- std_msgs `Header` (only the field the code touches). -/
structure Header where
  frame_id : String
deriving DecidableEq, Repr

/-- visp_hand2eye_calibration `TransformArray` message. -/
structure TransformArray where
  header : Header
  transforms : List (Transform Vector3 Quaternion)
deriving DecidableEq, Repr

/-- Response of the `compute_effector_camera_quick` service. -/
structure QuickServiceResponse where
  effector_camera : Transform Vector3 Quaternion
deriving DecidableEq, Repr

/-- The configuration parameters read in `HandeyeCalibrator.__init__`
via `rospy.get_param`. -/
structure Config where
  eye_on_hand : Bool
  base_link_frame : String
  tool_frame : String
  optical_origin_frame : String
  optical_target_frame : String
deriving DecidableEq, Repr

/-- One call the calibrator makes to the tf listener:
`waitForTransform(target, source, time, timeout)` or
`lookupTransform(target, source, time)`. -/
inductive TFEvent where
  | wait (target source : String) (time timeout : Nat)
  | lookup (target source : String) (time : Nat)
deriving DecidableEq, Repr

/-- The tf listener, embedded as its response functions.
`waitForTransform` answers whether the transform became available within
the timeout (in Python a timeout raises, aborting the sampling call), and
`lookupTransform` answers with the transform tuple. -/
structure TFListener where
  waitForTransform : String → String → Nat → Nat → Bool
  lookupTransform : String → String → Nat → TfTuple
  now : Nat

/-- One element of `self.samples`: the dict
`{'robot': rob, 'optical': opt}` built by `_get_transforms`. -/
structure Sample where
  robot : TfTuple
  optical : TfTuple
deriving DecidableEq

/-- The mutable state of a `HandeyeCalibrator`: its `self.samples` list. -/
structure CalibratorState where
  samples : List Sample
deriving DecidableEq

namespace HandeyeCalibrator

/-- `HandeyeCalibrator.MIN_SAMPLES = 2`. -/
def MIN_SAMPLES : Nat := 2

/-- `_wait_for_tf_init`: waits for the robot pair at time 0 with a
10-second timeout and for the optical pair at time 0 with a 60-second
timeout.  Returns whether both waits succeeded and the trace of wait
calls (on a timeout the Python call raises, so the second wait is only
reached when the first succeeds). -/
def wait_for_tf_init (cfg : Config) (l : TFListener) :
    Bool × List TFEvent :=
  let e1 := TFEvent.wait cfg.base_link_frame cfg.tool_frame 0 10
  if l.waitForTransform cfg.base_link_frame cfg.tool_frame 0 10 then
    let e2 := TFEvent.wait cfg.optical_origin_frame cfg.optical_target_frame 0 60
    (l.waitForTransform cfg.optical_origin_frame cfg.optical_target_frame 0 60,
     [e1, e2])
  else
    (false, [e1])

/-- `_wait_for_transforms`: picks `now = rospy.Time.now()`, waits for the
robot pair and the optical pair at that instant, each with a
`rospy.Duration(10)` timeout, and returns `now`.  A timeout raises in
Python (embedded as `none`); the second wait is only reached when the
first succeeds. -/
def wait_for_transforms (cfg : Config) (l : TFListener) :
    Option Nat × List TFEvent :=
  let now := l.now
  let e1 := TFEvent.wait cfg.base_link_frame cfg.tool_frame now 10
  if l.waitForTransform cfg.base_link_frame cfg.tool_frame now 10 then
    let e2 := TFEvent.wait cfg.optical_origin_frame cfg.optical_target_frame now 10
    if l.waitForTransform cfg.optical_origin_frame cfg.optical_target_frame now 10 then
      (some now, [e1, e2])
    else
      (none, [e1, e2])
  else
    (none, [e1])

/-- The body of `_get_transforms` after `time` is fixed: the robot-side
lookup direction depends on `eye_on_hand`, the optical lookup does not;
both use the same `time`. -/
def get_transforms_at (cfg : Config) (l : TFListener) (time : Nat) :
    Sample × List TFEvent :=
  let rob :=
    if cfg.eye_on_hand then
      l.lookupTransform cfg.base_link_frame cfg.tool_frame time
    else
      l.lookupTransform cfg.tool_frame cfg.base_link_frame time
  let robEvent :=
    if cfg.eye_on_hand then
      TFEvent.lookup cfg.base_link_frame cfg.tool_frame time
    else
      TFEvent.lookup cfg.tool_frame cfg.base_link_frame time
  let opt := l.lookupTransform cfg.optical_origin_frame cfg.optical_target_frame time
  (⟨rob, opt⟩,
   [robEvent, TFEvent.lookup cfg.optical_origin_frame cfg.optical_target_frame time])

/-- `_get_transforms(time=None)`: when no time is given it obtains one
from `_wait_for_transforms` (propagating a timeout as `none`), then
performs both lookups at that single time. -/
def get_transforms (cfg : Config) (l : TFListener) (time? : Option Nat) :
    Option Sample × List TFEvent :=
  match time? with
  | some time =>
      let r := get_transforms_at cfg l time
      (some r.1, r.2)
  | none =>
      match wait_for_transforms cfg l with
      | (some time, ev) =>
          let r := get_transforms_at cfg l time
          (some r.1, ev ++ r.2)
      | (none, ev) => (none, ev)

/-- `take_sample`: fetches the transform pair (with `time=None`) and
appends it to `self.samples`.  When the wait times out the exception
propagates and no sample is recorded. -/
def take_sample (cfg : Config) (l : TFListener) (st : CalibratorState) :
    CalibratorState × List TFEvent :=
  match get_transforms cfg l none with
  | (some transforms, ev) => (⟨st.samples ++ [transforms]⟩, ev)
  | (none, ev) => (st, ev)

/-- `remove_sample(index)`: `del self.samples[index]` guarded by
`0 <= index < len(self.samples)`; otherwise a no-op. -/
def remove_sample (st : CalibratorState) (index : Int) : CalibratorState :=
  if 0 ≤ index ∧ index < (st.samples.length : Int) then
    ⟨st.samples.eraseIdx index.toNat⟩
  else
    st

/-- `_tuple_to_visp_transform`: repackages a tf tuple into a
geometry_msgs `Transform` (`Vector3(*tf_t[0])`, `Quaternion(*tf_t[1])`). -/
def tuple_to_visp_transform (tf_t : TfTuple) : Transform Vector3 Quaternion :=
  ⟨⟨tf_t.1.1, tf_t.1.2.1, tf_t.1.2.2⟩,
   ⟨tf_t.2.1, tf_t.2.2.1, tf_t.2.2.2.1, tf_t.2.2.2.2⟩⟩

/-- The body of the `for s in self.samples` loop in `get_visp_samples`:
appends the optical half to the camera-marker array and the robot half to
the hand-world array.  The accumulator is the pair
`(hand_world_samples, camera_marker_samples)`. -/
def visp_step (acc : TransformArray × TransformArray) (s : Sample) :
    TransformArray × TransformArray :=
  let t_opt := tuple_to_visp_transform s.optical
  let camera_marker := { acc.2 with transforms := acc.2.transforms ++ [t_opt] }
  let tr := tuple_to_visp_transform s.robot
  let hand_world := { acc.1 with transforms := acc.1.transforms ++ [tr] }
  (hand_world, camera_marker)

/-- `get_visp_samples`: drains `self.samples` into the two
`TransformArray`s `(hand_world_samples, camera_marker_samples)` (both
headers carry `optical_origin_frame`). -/
def get_visp_samples (cfg : Config) (samples : List Sample) :
    TransformArray × TransformArray :=
  let hand_world_samples : TransformArray := ⟨⟨cfg.optical_origin_frame⟩, []⟩
  let camera_marker_samples : TransformArray := ⟨⟨cfg.optical_origin_frame⟩, []⟩
  samples.foldl visp_step (hand_world_samples, camera_marker_samples)

/-- Modelled from the spec: the `HandeyeCalibration` record constructed at
the end of `compute_calibration` is defined in
`handeyecalibration/handeye_calibration.py`, a file of this repository not
among the provided sources.  Per the spec a `CalibrationResult` is
`{eye_on_hand, base_link_frame, tool_frame, optical_origin_frame,
transform}`; the call site passes exactly those five values in this
order, `transform` being the `result_tf` tuple pair. -/
structure HandeyeCalibration where
  eye_on_hand : Bool
  base_link_frame : String
  tool_frame : String
  optical_origin_frame : String
  transformation : Transform (Rat × Rat × Rat) (Rat × Rat × Rat × Rat)
deriving DecidableEq

/-- What `compute_calibration` returns and reports: `None` with a warning
naming the missing sample count, `None` with a sample-count-mismatch
error, `None` with a service-failure error, or the `HandeyeCalibration`
result. -/
inductive ComputeOutcome where
  | insufficientSamples (needed : Nat)
  | sampleCountMismatch
  | serviceFailure (msg : String)
  | success (ret : HandeyeCalibration)
deriving DecidableEq

/-- The Python return value extracted from a `ComputeOutcome`:
`compute_calibration` returns the calibration on success and `None` in
every other case. -/
def returnedResult : ComputeOutcome → Option HandeyeCalibration
  | .success ret => some ret
  | _ => none

/-- The calibration service proxy `self.calibrate`: takes
`(camera_marker_samples, hand_world_samples)` and either answers with a
response or raises a `ServiceException` carrying a message. -/
def Solver : Type :=
  TransformArray → TransformArray → Except String QuickServiceResponse

/-- Result of `compute_calibration`: the outcome (return value plus the
reported condition), the arguments passed to the solver (`none` when the
solver was never invoked), and the sample state after the call. -/
structure ComputeResult where
  outcome : ComputeOutcome
  solveArgs : Option (TransformArray × TransformArray)
  state : CalibratorState

/-- `compute_calibration`: guards on `MIN_SAMPLES`, drains the samples via
`get_visp_samples`, re-checks the two lengths, calls the service with
`(camera_marker_samples, hand_world_samples)`, and on success rebuilds the
transform as tuples and wraps it with the configuration into a
`HandeyeCalibration`; a `ServiceException` yields `None`.  No branch
touches `self.samples`. -/
def compute_calibration (cfg : Config) (st : CalibratorState)
    (calibrate : Solver) : ComputeResult :=
  if st.samples.length < MIN_SAMPLES then
    ⟨.insufficientSamples (MIN_SAMPLES - st.samples.length), none, st⟩
  else
    let hw_cm := get_visp_samples cfg st.samples
    let hand_world_samples := hw_cm.1
    let camera_marker_samples := hw_cm.2
    if hand_world_samples.transforms.length ≠ camera_marker_samples.transforms.length then
      ⟨.sampleCountMismatch, none, st⟩
    else
      match calibrate camera_marker_samples hand_world_samples with
      | .ok result =>
          let transl := result.effector_camera.translation
          let rot := result.effector_camera.rotation
          let result_tf : Transform (Rat × Rat × Rat) (Rat × Rat × Rat × Rat) :=
            ⟨(transl.x, transl.y, transl.z), (rot.x, rot.y, rot.z, rot.w)⟩
          ⟨.success ⟨cfg.eye_on_hand, cfg.base_link_frame, cfg.tool_frame,
                     cfg.optical_origin_frame, result_tf⟩,
           some (camera_marker_samples, hand_world_samples), st⟩
      | .error ex =>
          ⟨.serviceFailure ("Calibration failed: " ++ ex),
           some (camera_marker_samples, hand_world_samples), st⟩

/-- The `waitForTransform` calls in a trace, as
`(target, source, time, timeout)` tuples, in order. -/
def waitCalls : List TFEvent → List (String × String × Nat × Nat)
  | [] => []
  | .wait a b t d :: es => (a, b, t, d) :: waitCalls es
  | .lookup _ _ _ :: es => waitCalls es

/-- The `lookupTransform` calls in a trace, as `(target, source, time)`
tuples, in order. -/
def lookupCalls : List TFEvent → List (String × String × Nat)
  | [] => []
  | .lookup a b t :: es => (a, b, t) :: lookupCalls es
  | .wait _ _ _ _ :: es => lookupCalls es

/-! Characterization of the drain loop: folding `visp_step` appends the
robot halves to the first array and the optical halves to the second, in
sample order. -/

theorem foldl_visp_step (samples : List Sample) (hw cm : TransformArray) :
    samples.foldl visp_step (hw, cm) =
      ({ hw with transforms :=
          hw.transforms ++ samples.map (fun s => tuple_to_visp_transform s.robot) },
       { cm with transforms :=
          cm.transforms ++ samples.map (fun s => tuple_to_visp_transform s.optical) }) := by
  induction samples generalizing hw cm with
  | nil => simp
  | cons s rest ih =>
      simp only [List.foldl_cons, List.map_cons, visp_step, ih, List.append_assoc,
        List.singleton_append]

theorem get_visp_samples_eq (cfg : Config) (samples : List Sample) :
    get_visp_samples cfg samples =
      (⟨⟨cfg.optical_origin_frame⟩,
        samples.map (fun s => tuple_to_visp_transform s.robot)⟩,
       ⟨⟨cfg.optical_origin_frame⟩,
        samples.map (fun s => tuple_to_visp_transform s.optical)⟩) := by
  simp [get_visp_samples, foldl_visp_step]

/-! Concrete data used by the witness theorems: the default configuration
from `__init__`, an always-available listener, two distinct samples, and
two solver behaviours. -/

def cfg0 : Config :=
  ⟨false, "base_link", "tool0", "optical_origin", "optical_target"⟩

def l0 : TFListener :=
  ⟨fun _ _ _ _ => true, fun _ _ _ => ((0, 0, 0), (0, 0, 0, 1)), 5⟩

def sample0 : Sample := ⟨((0, 0, 0), (0, 0, 0, 1)), ((0, 0, 0), (0, 0, 0, 1))⟩

def sample1 : Sample := ⟨((1, 2, 3), (0, 0, 0, 1)), ((4, 5, 6), (0, 0, 0, 1))⟩

def st2 : CalibratorState := ⟨[sample0, sample1]⟩

def failSolver : Solver := fun _ _ => Except.error "boom"

def idResponse : QuickServiceResponse := ⟨⟨⟨0, 0, 0⟩, ⟨0, 0, 0, 1⟩⟩⟩

def okSolver : Solver := fun _ _ => Except.ok idResponse

/-- C1: in every `take_sample` call (one whose waits succeed, so that the
lookups are reached), the robot-side lookup direction depends on
`eye_on_hand` — `(base_link_frame, tool_frame)` when true,
`(tool_frame, base_link_frame)` when false — and in both modes the
optical lookup is `(optical_origin_frame, optical_target_frame)`. -/
theorem take_sample_lookup_directions (cfg : Config) (l : TFListener)
    (st : CalibratorState)
    (hb : l.waitForTransform cfg.base_link_frame cfg.tool_frame l.now 10 = true)
    (ho : l.waitForTransform cfg.optical_origin_frame cfg.optical_target_frame l.now 10 = true) :
    lookupCalls (take_sample cfg l st).2 =
      [if cfg.eye_on_hand then (cfg.base_link_frame, cfg.tool_frame, l.now)
       else (cfg.tool_frame, cfg.base_link_frame, l.now),
       (cfg.optical_origin_frame, cfg.optical_target_frame, l.now)] := by
  simp only [take_sample, get_transforms, wait_for_transforms, hb, ho, if_true,
    get_transforms_at, List.cons_append, List.nil_append]
  cases cfg.eye_on_hand <;> simp [lookupCalls]

/-- C1 witness: with the default configuration (eye-on-base) and an
always-available listener, the lookups of one `take_sample` call. -/
theorem take_sample_lookup_directions_witness :
    l0.waitForTransform cfg0.base_link_frame cfg0.tool_frame l0.now 10 = true ∧
    l0.waitForTransform cfg0.optical_origin_frame cfg0.optical_target_frame l0.now 10 = true ∧
    lookupCalls (take_sample cfg0 l0 ⟨[]⟩).2 =
      [if cfg0.eye_on_hand then (cfg0.base_link_frame, cfg0.tool_frame, l0.now)
       else (cfg0.tool_frame, cfg0.base_link_frame, l0.now),
       (cfg0.optical_origin_frame, cfg0.optical_target_frame, l0.now)] :=
  ⟨rfl, rfl, take_sample_lookup_directions cfg0 l0 ⟨[]⟩ rfl rfl⟩

/-- C8: both lookups of one `take_sample` call use one and the same
timestamp, the `now()` value obtained once by `_wait_for_transforms`. -/
theorem take_sample_single_timestamp (cfg : Config) (l : TFListener)
    (st : CalibratorState)
    (hb : l.waitForTransform cfg.base_link_frame cfg.tool_frame l.now 10 = true)
    (ho : l.waitForTransform cfg.optical_origin_frame cfg.optical_target_frame l.now 10 = true) :
    (lookupCalls (take_sample cfg l st).2).map (fun c => c.2.2) = [l.now, l.now] := by
  simp only [take_sample, get_transforms, wait_for_transforms, hb, ho, if_true,
    get_transforms_at, List.cons_append, List.nil_append]
  cases cfg.eye_on_hand <;> simp [lookupCalls]

/-- C8 witness: the two lookup timestamps of a concrete `take_sample`
call both equal the listener's `now`. -/
theorem take_sample_single_timestamp_witness :
    l0.waitForTransform cfg0.base_link_frame cfg0.tool_frame l0.now 10 = true ∧
    l0.waitForTransform cfg0.optical_origin_frame cfg0.optical_target_frame l0.now 10 = true ∧
    (lookupCalls (take_sample cfg0 l0 ⟨[]⟩).2).map (fun c => c.2.2) = [l0.now, l0.now] :=
  ⟨rfl, rfl, take_sample_single_timestamp cfg0 l0 ⟨[]⟩ rfl rfl⟩

/-- C5 counterexample: in a concrete `take_sample` call the two
`waitForTransform` timeouts are 10 and 10 — the optical timeout is not
longer than the robot one, contradicting the claim that the two timeouts
differ with the optical one longer. -/
theorem take_sample_equal_timeouts_cex :
    (waitCalls (take_sample cfg0 l0 ⟨[]⟩).2).map (fun c => c.2.2.2) = [10, 10] ∧
    ¬ ((10 : Nat) < 10) := by
  refine ⟨rfl, by decide⟩

/-- C5 amended: every `take_sample` call (one whose robot-pair wait is
answered, so that the optical wait is reached) waits for the robot pair
and then the optical pair with the SAME 10-second timeout for each; the
short/long (10 s / 60 s) split exists only in the separate
`_wait_for_tf_init` routine, which `take_sample` does not use. -/
theorem take_sample_wait_timeouts (cfg : Config) (l : TFListener)
    (st : CalibratorState)
    (hb : l.waitForTransform cfg.base_link_frame cfg.tool_frame l.now 10 = true) :
    waitCalls (take_sample cfg l st).2 =
      [(cfg.base_link_frame, cfg.tool_frame, l.now, 10),
       (cfg.optical_origin_frame, cfg.optical_target_frame, l.now, 10)] := by
  cases ho : l.waitForTransform cfg.optical_origin_frame cfg.optical_target_frame l.now 10 <;>
    cases he : cfg.eye_on_hand <;>
      simp [take_sample, get_transforms, wait_for_transforms, hb, ho, he,
        get_transforms_at, waitCalls]

/-- C5 amended witness: concrete `take_sample` call showing both wait
calls with their equal timeouts. -/
theorem take_sample_wait_timeouts_witness :
    l0.waitForTransform cfg0.base_link_frame cfg0.tool_frame l0.now 10 = true ∧
    waitCalls (take_sample cfg0 l0 ⟨[]⟩).2 =
      [(cfg0.base_link_frame, cfg0.tool_frame, l0.now, 10),
       (cfg0.optical_origin_frame, cfg0.optical_target_frame, l0.now, 10)] :=
  ⟨rfl, take_sample_wait_timeouts cfg0 l0 ⟨[]⟩ rfl⟩

/-- C2: with fewer than `MIN_SAMPLES` samples, `compute_calibration`
reports how many more samples are needed (`MIN_SAMPLES` minus the current
count), returns `None`, and never invokes the solver. -/
theorem compute_calibration_insufficient (cfg : Config) (st : CalibratorState)
    (calibrate : Solver)
    (h : st.samples.length < MIN_SAMPLES) :
    (compute_calibration cfg st calibrate).outcome =
        ComputeOutcome.insufficientSamples (MIN_SAMPLES - st.samples.length) ∧
    returnedResult (compute_calibration cfg st calibrate).outcome = none ∧
    (compute_calibration cfg st calibrate).solveArgs = none := by
  simp [compute_calibration, h, returnedResult]

/-- C2 witness: the empty sample store. -/
theorem compute_calibration_insufficient_witness :
    (⟨[]⟩ : CalibratorState).samples.length < MIN_SAMPLES ∧
    ((compute_calibration cfg0 ⟨[]⟩ failSolver).outcome =
        ComputeOutcome.insufficientSamples
          (MIN_SAMPLES - (⟨[]⟩ : CalibratorState).samples.length) ∧
     returnedResult (compute_calibration cfg0 ⟨[]⟩ failSolver).outcome = none ∧
     (compute_calibration cfg0 ⟨[]⟩ failSolver).solveArgs = none) :=
  ⟨by decide, compute_calibration_insufficient cfg0 ⟨[]⟩ failSolver (by decide)⟩

/-- C3: with at least `MIN_SAMPLES` samples, when the solver call raises
(`ServiceException ex`), `compute_calibration` reports the service
failure with the underlying cause, returns `None`, and leaves the sample
state exactly as it was. -/
theorem compute_calibration_service_failure (cfg : Config) (st : CalibratorState)
    (calibrate : Solver) (ex : String)
    (h : MIN_SAMPLES ≤ st.samples.length)
    (hf : calibrate (get_visp_samples cfg st.samples).2 (get_visp_samples cfg st.samples).1 =
          Except.error ex) :
    (compute_calibration cfg st calibrate).outcome =
        ComputeOutcome.serviceFailure ("Calibration failed: " ++ ex) ∧
    returnedResult (compute_calibration cfg st calibrate).outcome = none ∧
    (compute_calibration cfg st calibrate).state = st := by
  have hlen : (get_visp_samples cfg st.samples).1.transforms.length =
      (get_visp_samples cfg st.samples).2.transforms.length := by
    simp [get_visp_samples_eq]
  simp [compute_calibration, Nat.not_lt.mpr h, hlen, hf, returnedResult]

/-- C3 witness: two samples and a solver that always raises. -/
theorem compute_calibration_service_failure_witness :
    MIN_SAMPLES ≤ st2.samples.length ∧
    ((compute_calibration cfg0 st2 failSolver).outcome =
        ComputeOutcome.serviceFailure ("Calibration failed: " ++ "boom") ∧
     returnedResult (compute_calibration cfg0 st2 failSolver).outcome = none ∧
     (compute_calibration cfg0 st2 failSolver).state = st2) :=
  ⟨by decide,
   compute_calibration_service_failure cfg0 st2 failSolver "boom" (by decide) rfl⟩

/-- C4: `get_visp_samples` yields two sequences whose lengths both equal
the sample count, and at every index the robot-side entry and the
optical-side entry are the two halves of the sample appended at that
position. -/
theorem get_visp_samples_aligned (cfg : Config) (samples : List Sample) :
    (get_visp_samples cfg samples).1.transforms.length = samples.length ∧
    (get_visp_samples cfg samples).2.transforms.length = samples.length ∧
    ∀ i : Nat,
      (get_visp_samples cfg samples).1.transforms[i]? =
        samples[i]?.map (fun s => tuple_to_visp_transform s.robot) ∧
      (get_visp_samples cfg samples).2.transforms[i]? =
        samples[i]?.map (fun s => tuple_to_visp_transform s.optical) := by
  simp [get_visp_samples_eq, List.getElem?_map]

/-- C6: `remove_sample(i)` for any `i` outside `[0, count())` — negative
indices included — is a no-op: the state (count and contents) is
unchanged. -/
theorem remove_sample_out_of_range (st : CalibratorState) (index : Int)
    (h : ¬ (0 ≤ index ∧ index < (st.samples.length : Int))) :
    remove_sample st index = st := by
  simp [remove_sample, h]

/-- C6 witness: removing index −1 from a one-sample store. -/
theorem remove_sample_out_of_range_witness :
    ¬ ((0 : Int) ≤ -1 ∧ (-1 : Int) < ((⟨[sample0]⟩ : CalibratorState).samples.length : Int)) ∧
    remove_sample ⟨[sample0]⟩ (-1) = ⟨[sample0]⟩ :=
  ⟨by decide, remove_sample_out_of_range ⟨[sample0]⟩ (-1) (by decide)⟩

/-- C7: `remove_sample(i)` for `i` in `[0, count())` decreases the count
by exactly 1 and leaves the elements before `i` followed by the elements
after `i`, in their original relative order. -/
theorem remove_sample_valid (st : CalibratorState) (index : Int)
    (h0 : 0 ≤ index) (h1 : index < (st.samples.length : Int)) :
    (remove_sample st index).samples.length = st.samples.length - 1 ∧
    (remove_sample st index).samples =
      st.samples.take index.toNat ++ st.samples.drop (index.toNat + 1) := by
  have hn : index.toNat < st.samples.length := by omega
  have hr : remove_sample st index = ⟨st.samples.eraseIdx index.toNat⟩ := by
    simp [remove_sample, h0, h1]
  rw [hr]
  refine ⟨?_, ?_⟩
  · simp [List.length_eraseIdx, hn]
  · simpa using List.eraseIdx_eq_take_drop_succ st.samples index.toNat

/-- C7 witness: removing index 0 from the two-sample store. -/
theorem remove_sample_valid_witness :
    (0 : Int) ≤ 0 ∧ (0 : Int) < (st2.samples.length : Int) ∧
    ((remove_sample st2 0).samples.length = st2.samples.length - 1 ∧
     (remove_sample st2 0).samples =
       st2.samples.take (0 : Int).toNat ++ st2.samples.drop ((0 : Int).toNat + 1)) :=
  ⟨by decide, by decide, remove_sample_valid st2 0 (by decide) (by decide)⟩

/-- C9: in eye-on-base mode with at least `MIN_SAMPLES` samples,
`compute_calibration` invokes the solver with two sequences whose lengths
equal the sample count, and when the solver answers with transform `T`
the returned record carries exactly the components of `T` as its transform
together with the configuration, `eye_on_hand = false` included. -/
theorem compute_calibration_success_result (cfg : Config) (st : CalibratorState)
    (calibrate : Solver) (T : Transform Vector3 Quaternion)
    (hcfg : cfg.eye_on_hand = false)
    (h : MIN_SAMPLES ≤ st.samples.length)
    (hs : calibrate (get_visp_samples cfg st.samples).2 (get_visp_samples cfg st.samples).1 =
          Except.ok ⟨T⟩) :
    (compute_calibration cfg st calibrate).solveArgs =
        some ((get_visp_samples cfg st.samples).2, (get_visp_samples cfg st.samples).1) ∧
    (get_visp_samples cfg st.samples).2.transforms.length = st.samples.length ∧
    (get_visp_samples cfg st.samples).1.transforms.length = st.samples.length ∧
    (compute_calibration cfg st calibrate).outcome =
      ComputeOutcome.success
        ⟨false, cfg.base_link_frame, cfg.tool_frame, cfg.optical_origin_frame,
         ⟨(T.translation.x, T.translation.y, T.translation.z),
          (T.rotation.x, T.rotation.y, T.rotation.z, T.rotation.w)⟩⟩ := by
  have hlen : (get_visp_samples cfg st.samples).1.transforms.length =
      (get_visp_samples cfg st.samples).2.transforms.length := by
    simp [get_visp_samples_eq]
  refine ⟨?_, ?_, ?_, ?_⟩
  · simp [compute_calibration, Nat.not_lt.mpr h, hlen, hs]
  · simp [get_visp_samples_eq]
  · simp [get_visp_samples_eq]
  · simp [compute_calibration, Nat.not_lt.mpr h, hlen, hs, hcfg]

/-- C9 witness: default eye-on-base configuration, two samples, solver
answering the identity transform; the result carries the identity and
`eye_on_hand = false`. -/
theorem compute_calibration_success_result_witness :
    cfg0.eye_on_hand = false ∧
    MIN_SAMPLES ≤ st2.samples.length ∧
    ((compute_calibration cfg0 st2 okSolver).solveArgs =
        some ((get_visp_samples cfg0 st2.samples).2, (get_visp_samples cfg0 st2.samples).1) ∧
     (get_visp_samples cfg0 st2.samples).2.transforms.length = st2.samples.length ∧
     (get_visp_samples cfg0 st2.samples).1.transforms.length = st2.samples.length ∧
     (compute_calibration cfg0 st2 okSolver).outcome =
       ComputeOutcome.success
         ⟨false, cfg0.base_link_frame, cfg0.tool_frame, cfg0.optical_origin_frame,
          ⟨(idResponse.effector_camera.translation.x,
            idResponse.effector_camera.translation.y,
            idResponse.effector_camera.translation.z),
           (idResponse.effector_camera.rotation.x,
            idResponse.effector_camera.rotation.y,
            idResponse.effector_camera.rotation.z,
            idResponse.effector_camera.rotation.w)⟩⟩) :=
  ⟨rfl, by decide,
   compute_calibration_success_result cfg0 st2 okSolver idResponse.effector_camera
     rfl (by decide) rfl⟩

/-- C10: whenever `compute_calibration` reaches the solver, the first
argument is the camera-marker (optical) array and the second the
hand-world (robot) array — the swap of the
`(hand_world, camera_marker)` order in which `get_visp_samples` returns
them. -/
theorem compute_calibration_arg_order (cfg : Config) (st : CalibratorState)
    (calibrate : Solver) (p : TransformArray × TransformArray)
    (h : (compute_calibration cfg st calibrate).solveArgs = some p) :
    p = ((get_visp_samples cfg st.samples).2, (get_visp_samples cfg st.samples).1) := by
  by_cases hlt : st.samples.length < MIN_SAMPLES
  · simp [compute_calibration, hlt] at h
  · have hlen : (get_visp_samples cfg st.samples).1.transforms.length =
        (get_visp_samples cfg st.samples).2.transforms.length := by
      simp [get_visp_samples_eq]
    cases hcal : calibrate (get_visp_samples cfg st.samples).2 (get_visp_samples cfg st.samples).1 with
    | ok r =>
        simp [compute_calibration, hlt, hlen, hcal] at h
        exact h.symm
    | error e =>
        simp [compute_calibration, hlt, hlen, hcal] at h
        exact h.symm

/-- C10 witness: a concrete call that reaches the solver; the recorded
arguments are `(camera_marker, hand_world)`. -/
theorem compute_calibration_arg_order_witness :
    (compute_calibration cfg0 st2 failSolver).solveArgs =
        some ((get_visp_samples cfg0 st2.samples).2, (get_visp_samples cfg0 st2.samples).1) ∧
    ((get_visp_samples cfg0 st2.samples).2, (get_visp_samples cfg0 st2.samples).1) =
      ((get_visp_samples cfg0 st2.samples).2, (get_visp_samples cfg0 st2.samples).1) :=
  ⟨by decide,
   compute_calibration_arg_order cfg0 st2 failSolver
     ((get_visp_samples cfg0 st2.samples).2, (get_visp_samples cfg0 st2.samples).1)
     (by decide)⟩

end HandeyeCalibrator

end EasyHandeye
